import Mathlib

/-!
# Study O'Clock: page behaviours of `main.js`

A shallow embedding of the event handlers of `src/main.js` and the properties
they satisfy.  Each handler becomes a function from the part of the document it
reads to the part it writes.

Conventions of the embedding:

* a JavaScript number is an integer-valued double or `NaN` (`JSNum`); the
  values that occur are differences of time stamps, far below `2 ^ 53`, so
  `Math.floor (a / b)` is exact floor division;
* a JavaScript string handled by the form validator is its list of UTF-16 code
  units (`JSString`);
* a `classList` is the list of its tokens;
* elements found by a `querySelectorAll` are identified by their position in
  the returned node list.
-/

namespace StudyOClock

/-! ## JavaScript numbers -/

/-- A JavaScript number as the countdown computes with it: an integer-valued
double, or `NaN` (what `getTime` yields for an invalid date). -/
inductive JSNum where
  | int (v : Int)
  | nan
  deriving DecidableEq, Repr

namespace JSNum

/-- The binary `-` of JavaScript. -/
def sub : JSNum → JSNum → JSNum
  | int a, int b => int (a - b)
  | _, _ => nan

/-- The comparison `a < b` of JavaScript; any comparison with `NaN` is false. -/
def lt : JSNum → JSNum → Bool
  | int a, int b => decide (a < b)
  | _, _ => false

/-- The operator `%` of JavaScript: the remainder takes the sign of the dividend
(truncated division); a zero divisor gives `NaN`. -/
def mod : JSNum → JSNum → JSNum
  | int a, int b => if b = 0 then nan else int (Int.tmod a b)
  | _, _ => nan

/-- The expression `Math.floor(a / b)` for a non-zero divisor: the floor of the
real quotient.  (A zero divisor, which gives an infinity or `NaN` in JavaScript,
does not occur: the script divides by non-zero literals only.) -/
def floorDiv : JSNum → JSNum → JSNum
  | int a, int b => if b = 0 then nan else int (Int.fdiv a b)
  | _, _ => nan

/-- The string an assignment to `innerHTML` stores for a number. -/
def toJSString : JSNum → String
  | int v => toString v
  | nan => "NaN"

end JSNum

/-! ## Countdown timer (`initCountdownTimers`) -/

/-- The four values computed by one tick. -/
structure RemainingTime where
  days : JSNum
  hours : JSNum
  minutes : JSNum
  seconds : JSNum
  deriving DecidableEq, Repr

/-- Lines 91-94: the time calculations for days, hours, minutes and seconds. -/
def timeCalculations (distance : JSNum) : RemainingTime :=
  { days := JSNum.floorDiv distance (.int (1000 * 60 * 60 * 24))
    hours := JSNum.floorDiv (JSNum.mod distance (.int (1000 * 60 * 60 * 24))) (.int (1000 * 60 * 60))
    minutes := JSNum.floorDiv (JSNum.mod distance (.int (1000 * 60 * 60))) (.int (1000 * 60))
    seconds := JSNum.floorDiv (JSNum.mod distance (.int (1000 * 60))) (.int 1000) }

/-- The host markup inside the `.countdown-timer` element, as far as the tick
looks at it.  `numbers` holds the `innerHTML` of the number elements; a selector
result is the position of the selected element in `numbers`, so one element may
be selected by several selectors. -/
structure CountdownMarkup where
  numbers : List String
  /-- Result of `querySelector('.days .number')`. -/
  daysEl : Option Nat
  /-- Result of `querySelector('.hours .number')`. -/
  hoursEl : Option Nat
  /-- Result of `querySelector('.minutes .number')`. -/
  minutesEl : Option Nat
  /-- Result of `querySelector('.seconds .number')`. -/
  secondsEl : Option Nat
  /-- Result of `querySelectorAll('.time-block .number')`. -/
  timeBlocks : List Nat
  deriving DecidableEq, Repr

/-- Content of the `.countdown-timer` element: the host markup, or the HTML
string last assigned to its `innerHTML`. -/
inductive CountdownContent where
  | markup (m : CountdownMarkup)
  | html (s : String)
  deriving DecidableEq, Repr

/-- The `.countdown-timer` element. -/
structure CountdownElement where
  /-- Value of `dataset.deadline`; `none` is `undefined` (attribute absent). -/
  deadline : Option String
  content : CountdownContent
  deriving DecidableEq, Repr

/-- State of the countdown subsystem: the element, if the page has one, and the
live `setInterval` registration, if any, with the `targetDate` captured by its
callback. -/
structure CountdownState where
  element : Option CountdownElement
  interval : Option JSNum
  deriving DecidableEq, Repr

/-- The HTML string assigned on expiry (line 86). -/
def expiredMessage : String :=
  "<h3 class=\"countdown-expired\">This scholarship deadline has passed.</h3>"

/-- The guarded assignment `if (el) el.innerHTML = v`. -/
def setInnerHTML (el : Option Nat) (v : JSNum) (numbers : List String) : List String :=
  match el with
  | some i => numbers.set i v.toJSString
  | none => numbers

/-- Lines 97-114: write the four values into the number elements present. -/
def updateDisplay (r : RemainingTime) (m : CountdownMarkup) : CountdownMarkup :=
  let n1 := setInnerHTML m.daysEl r.days m.numbers
  let n2 := setInnerHTML m.hoursEl r.hours n1
  let n3 := setInnerHTML m.minutesEl r.minutes n2
  let n4 := setInnerHTML m.secondsEl r.seconds n3
  let n5 :=
    if m.timeBlocks.length ≥ 4 then
      setInnerHTML m.timeBlocks[3]? r.seconds
        (setInnerHTML m.timeBlocks[2]? r.minutes
          (setInnerHTML m.timeBlocks[1]? r.hours
            (setInnerHTML m.timeBlocks[0]? r.days n4)))
    else n4
  { m with numbers := n5 }

/-- Lines 97-114 on the current content of the element: once the content has
been replaced by an HTML string without number elements, every query comes back
empty and nothing is written. -/
def updateContent (r : RemainingTime) : CountdownContent → CountdownContent
  | .markup m => .markup (updateDisplay r m)
  | .html s => .html s

/-- Lines 79-116: the callback passed to `setInterval`, run at time `now` with
the captured `targetDate` and element. -/
def intervalCallback (targetDate : JSNum) (now : Int) (el : CountdownElement) : CountdownState :=
  let distance := JSNum.sub targetDate (.int now)
  if JSNum.lt distance (.int 0) then
    { element := some { el with content := .html expiredMessage }, interval := none }
  else
    { element := some { el with content := updateContent (timeCalculations distance) el.content }
      interval := some targetDate }

/-- Lines 69-119: `initCountdownTimers`.  `parseDate d` stands for
`new Date(d).getTime()`, which is `NaN` for a string that is not a date. -/
def initCountdownTimers (parseDate : String → JSNum) (el : Option CountdownElement) :
    CountdownState :=
  match el with
  | none => { element := none, interval := none }
  | some e =>
    match e.deadline with
    | none => { element := some e, interval := none }
    | some deadline =>
      if deadline ≠ "" then { element := some e, interval := some (parseDate deadline) }
      else { element := some e, interval := none }

/-- One firing of the timer at time `now`: the callback runs only while the
interval registration is live. -/
def fire (now : Int) (st : CountdownState) : CountdownState :=
  match st.interval, st.element with
  | some targetDate, some el => intervalCallback targetDate now el
  | _, _ => st

/-- The timer firing at the successive times `nows`. -/
def fireAll (nows : List Int) (st : CountdownState) : CountdownState :=
  nows.foldl (fun s now => fire now s) st

/-- The countdown has expired: the timer is cancelled and the element shows the
expired message. -/
def isExpired (st : CountdownState) : Prop :=
  st.interval = none ∧ st.element.map (fun el => el.content) = some (.html expiredMessage)

instance (st : CountdownState) : Decidable (isExpired st) := by
  unfold isExpired
  infer_instance

/-- The elements one tick writes to: the individually marked ones that exist,
and the first four generically marked ones when there are at least four. -/
def writtenElements (m : CountdownMarkup) : List Nat :=
  [m.daysEl, m.hoursEl, m.minutesEl, m.secondsEl].reduceOption ++
    (if m.timeBlocks.length ≥ 4 then m.timeBlocks.take 4 else [])

/-- The display does not show more at `a` than at `b`: lexicographic order on
(days, hours, minutes, seconds). -/
def lexLe (a b : RemainingTime) : Prop :=
  JSNum.lt a.days b.days = true ∨ (a.days = b.days ∧
    (JSNum.lt a.hours b.hours = true ∨ (a.hours = b.hours ∧
      (JSNum.lt a.minutes b.minutes = true ∨ (a.minutes = b.minutes ∧
        (JSNum.lt a.seconds b.seconds = true ∨ a.seconds = b.seconds))))))

/-! ## Class lists -/

namespace classList

/-- The method `classList.contains(token)`. -/
def contains (cl : List String) (token : String) : Bool :=
  cl.elem token

/-- The method `classList.remove(token)`. -/
def remove (cl : List String) (token : String) : List String :=
  cl.filter (fun t => t ≠ token)

/-- The method `classList.add(token)`. -/
def add (cl : List String) (token : String) : List String :=
  if contains cl token then cl else cl ++ [token]

/-- The method `classList.toggle(token)`. -/
def toggle (cl : List String) (token : String) : List String :=
  if contains cl token then remove cl token else cl ++ [token]

end classList

/-! ## Accordion (`initAccordions`) -/

/-- An `.accordion-item` element. -/
structure AccordionItem where
  classList : List String
  /-- The element that `item.querySelector('.accordion-header')` finds (line
  128): the first header among the descendants of the item, which may also be
  the first header of an item it is nested in; `none` is `null`. -/
  header : Option Nat
  deriving DecidableEq, Repr

/-- The item carries the open marker. -/
def AccordionItem.isOpen (item : AccordionItem) : Bool :=
  classList.contains item.classList "active"

/-- Lines 133-137: close every other item that is open. -/
def closeOthers (i : Nat) (accordionItems : List AccordionItem) : List AccordionItem :=
  accordionItems.mapIdx fun j otherItem =>
    if j ≠ i ∧ classList.contains otherItem.classList "active" = true then
      { otherItem with classList := classList.remove otherItem.classList "active" }
    else otherItem

/-- Lines 131-141: the click handler registered for item `i`. -/
def accordionHandler (i : Nat) (accordionItems : List AccordionItem) : List AccordionItem :=
  (closeOthers i accordionItems).modify
    (fun item => { item with classList := classList.toggle item.classList "active" }) i

/-- The loop of lines 127-143 from item `index` on: every item with a header
adds a listener, a pair of the header element and the index of the item. -/
def registerFrom (index : Nat) : List AccordionItem → List (Nat × Nat)
  | [] => []
  | item :: rest =>
    match item.header with
    | some header => (header, index) :: registerFrom (index + 1) rest
    | none => registerFrom (index + 1) rest

/-- Lines 124-144: `initAccordions`, as the click listeners it registers, in
order of registration.  The handlers change class lists only, so the listeners
are the same in every later state of the items. -/
def initAccordions (accordionItems : List AccordionItem) : List (Nat × Nat) :=
  registerFrom 0 accordionItems

/-- The handlers one click runs.  `path` lists the header elements the click
event passes, the clicked one first and then the headers it lies in; on each of
them the listeners run in order of registration. -/
def clickHandlers (listeners : List (Nat × Nat)) (path : List Nat) : List Nat :=
  path.flatMap fun header => (listeners.filter fun l => l.1 == header).map Prod.snd

/-- A click whose event passes the header elements `path`: the handlers it
reaches run one after the other. -/
def clickHeader (path : List Nat) (accordionItems : List AccordionItem) : List AccordionItem :=
  (clickHandlers (initAccordions accordionItems) path).foldl
    (fun items i => accordionHandler i items) accordionItems

/-! ## Course filter (`initCourseFilters`) -/

/-- A `.filter-btn` element. -/
structure FilterButton where
  classList : List String
  /-- Value of `getAttribute('data-category')`; `none` is `null`. -/
  category : Option String
  deriving DecidableEq, Repr

/-- A `.course-category` element. -/
structure CourseCategory where
  /-- Value of `getAttribute('data-category')`; `none` is `null`. -/
  category : Option String
  /-- Value of `style.display`. -/
  display : String
  deriving DecidableEq, Repr

/-- The two node lists `initCourseFilters` works on. -/
structure FilterPage where
  filterButtons : List FilterButton
  courseCategories : List CourseCategory
  deriving DecidableEq, Repr

/-- Lines 178-191: the click handler registered on filter button `i`, whose
`data-category` attribute is `category`. -/
def filterHandler (i : Nat) (category : Option String) (page : FilterPage) : FilterPage :=
  let cleared := page.filterButtons.map fun btn =>
    { btn with classList := classList.remove btn.classList "active" }
  let buttons := cleared.modify
    (fun btn => { btn with classList := classList.add btn.classList "active" }) i
  let sections := page.courseCategories.map fun categoryDiv =>
    if category = some "all" ∨ categoryDiv.category = category then
      { categoryDiv with display := "block" }
    else
      { categoryDiv with display := "none" }
  { filterButtons := buttons, courseCategories := sections }

/-- A click on filter button `i`: handlers exist only when both node lists are
non-empty (line 175). -/
def clickFilter (i : Nat) (page : FilterPage) : FilterPage :=
  if page.filterButtons.length > 0 ∧ page.courseCategories.length > 0 then
    match page.filterButtons[i]? with
    | some button => filterHandler i button.category page
    | none => page
  else page

/-! ## Contact form (`initContactForm`) -/

/-- A JavaScript string: its UTF-16 code units. -/
abbrev JSString := List Nat

/-- UTF-16 code units of a character. -/
def utf16Char (c : Char) : List Nat :=
  if c.toNat < 65536 then [c.toNat]
  else [55296 + (c.toNat - 65536) / 1024, 56320 + (c.toNat - 65536) % 1024]

/-- The JavaScript string with the given text. -/
def utf16 (s : String) : JSString :=
  s.toList.flatMap utf16Char

/-- The code units of ECMAScript `WhiteSpace` and `LineTerminator`: what the
class escape `\s` matches and what `trim` strips. -/
def isWhiteSpace (c : Nat) : Bool :=
  c = 9 || c = 10 || c = 11 || c = 12 || c = 13 || c = 32 || c = 160 || c = 5760 ||
  (8192 ≤ c && c ≤ 8202) || c = 8232 || c = 8233 || c = 8239 || c = 8287 ||
  c = 12288 || c = 65279

/-- The method `String.prototype.trim`. -/
def trim (s : JSString) : JSString :=
  ((s.dropWhile isWhiteSpace).reverse.dropWhile isWhiteSpace).reverse

/-- A member of a character class. -/
inductive ClassItem where
  /-- The class escape `\s`. -/
  | space
  /-- A single character. -/
  | char (c : Nat)
  deriving DecidableEq, Repr

/-- Does the class member cover code unit `c`? -/
def ClassItem.covers : ClassItem → Nat → Bool
  | .space, c => isWhiteSpace c
  | .char d, c => c == d

/-- An atom of a pattern: a literal character or a negated character class. -/
inductive Atom where
  | lit (c : Nat)
  | negClass (items : List ClassItem)
  deriving DecidableEq, Repr

/-- Does the atom match code unit `c`? -/
def Atom.matches : Atom → Nat → Bool
  | .lit d, c => c == d
  | .negClass items, c => !(items.any fun it => it.covers c)

/-- A term of a pattern. -/
inductive Term where
  /-- The assertion `^`. -/
  | bol
  /-- The assertion `$`. -/
  | eol
  /-- An atom. -/
  | one (a : Atom)
  /-- An atom under the quantifier `+`. -/
  | plus (a : Atom)
  deriving DecidableEq, Repr

/-- Greedy matching of `a+` followed by the continuation `k`: consume one more
character, try to consume further, and backtrack to `k` otherwise. -/
def plusLoop (a : Atom) (k : JSString → Bool) : JSString → Bool
  | [] => false
  | c :: s => a.matches c && (plusLoop a k s || k s)

/-- Backtracking match of a sequence of terms at the current position;
`atStart` says that the position is index 0 of the input. -/
def matchHere : List Term → Bool → JSString → Bool
  | [], _, _ => true
  | .bol :: ts, atStart, s => atStart && matchHere ts atStart s
  | .eol :: ts, atStart, s => s.isEmpty && matchHere ts atStart s
  | .one _ :: _, _, [] => false
  | .one a :: ts, _, c :: s => a.matches c && matchHere ts false s
  | .plus a :: ts, _, s => plusLoop a (fun rest => matchHere ts false rest) s

/-- Matching attempts at the positions after index 0. -/
def searchLater (r : List Term) : JSString → Bool
  | [] => false
  | _ :: s => matchHere r false s || searchLater r s

/-- The method `RegExp.prototype.test` for a pattern without flags: is there a
match starting at some index of the input? -/
def regexTest (r : List Term) (s : JSString) : Bool :=
  matchHere r true s || searchLater r s

/-- The class `[^\s@]`. -/
def notSpaceAt : Atom :=
  .negClass [.space, .char 64]

/-- Line 231: the pattern `/^[^\s@]+@[^\s@]+\.[^\s@]+$/`. -/
def emailRegex : List Term :=
  [.bol, .plus notSpaceAt, .one (.lit 64), .plus notSpaceAt, .one (.lit 46), .plus notSpaceAt, .eol]

/-- An element that is a descendant of the form or is owned by it, and carries
an `id` or a `name`. -/
structure FormControl where
  /-- The `id` attribute; empty when absent. -/
  id : String
  /-- The `name` attribute; empty when absent. -/
  name : String
  /-- The property `value`. -/
  value : JSString
  /-- The element is a descendant of the form, so `this.querySelector` sees it. -/
  inside : Bool
  /-- The form has the element as a named property, under its id and under its
  name: a listed element (button, fieldset, input, object, output, select,
  textarea) owned by the form, or an image in it. -/
  exposed : Bool
  deriving DecidableEq, Repr

/-- The first `form` element of the page: its elements with an id or a name, in
document order. -/
structure ContactForm where
  controls : List FormControl
  deriving DecidableEq, Repr

/-- The call `this.querySelector('#' + id)`; `none` is `null`. -/
def ContactForm.querySelector (form : ContactForm) (id : String) : Option FormControl :=
  form.controls.find? fun c => c.inside && c.id == id

/-- The named properties of a form come before its methods: reading
`this.reset` or `this.querySelector` yields an exposed element with that id or
name, if there is one, and not the method. -/
def ContactForm.shadows (form : ContactForm) (property : String) : Bool :=
  form.controls.any fun c => c.exposed && (c.id == property || c.name == property)

/-- An input of the form with the given id, the same name and the given value. -/
def formField (id : String) (value : JSString) : FormControl :=
  { id := id, name := id, value := value, inside := true, exposed := true }

/-- An exception thrown by the script. -/
inductive JSError where
  /-- Reading a property of `null`. -/
  | typeError
  deriving DecidableEq, Repr

/-- What a run of the submit handler has done. -/
structure SubmitEffects where
  /-- The handler called `e.preventDefault()`. -/
  defaultPrevented : Bool
  /-- The messages shown by `alert`, in order. -/
  alerts : List String
  /-- The handler called `this.reset()`. -/
  resetCalled : Bool
  /-- The exception the handler ended with, if any. -/
  thrown : Option JSError
  deriving DecidableEq, Repr

/-- Line 226. -/
def requiredMessage : String := "Please fill in all required fields."

/-- Line 233. -/
def emailMessage : String := "Please enter a valid email address."

/-- Line 238. -/
def successMessage : String :=
  "Thank you for your message! We will get back to you within 24 hours."

/-- The expression `this.querySelector(sel).value.trim()`: a `TypeError` when
`this.querySelector` is an element and not the method, and when the lookup gives
`null`. -/
def trimmedValue (form : ContactForm) (id : String) : Except JSError JSString :=
  if form.shadows "querySelector" then .error .typeError
  else
    match form.querySelector id with
    | some control => .ok (trim control.value)
    | none => .error .typeError

/-- Lines 221-238: the reads and checks of the handler.  The result is the
message passed to `alert` and whether the handler goes on to line 241. -/
def validate (form : ContactForm) : Except JSError (String × Bool) :=
  match trimmedValue form "name" with
  | .error err => .error err
  | .ok name =>
    match trimmedValue form "email" with
    | .error err => .error err
    | .ok email =>
      match trimmedValue form "phone" with
      | .error err => .error err
      | .ok phone =>
        if name.isEmpty || email.isEmpty || phone.isEmpty then
          .ok (requiredMessage, false)
        else if !regexTest emailRegex email then
          .ok (emailMessage, false)
        else
          .ok (successMessage, true)

/-- Lines 217-242: the submit handler.  The call `this.reset()` of line 241 is a
`TypeError` when `this.reset` is an element and not the method. -/
def submitHandler (form : ContactForm) : SubmitEffects :=
  match validate form with
  | .error err =>
    { defaultPrevented := true, alerts := [], resetCalled := false, thrown := some err }
  | .ok (message, false) =>
    { defaultPrevented := true, alerts := [message], resetCalled := false, thrown := none }
  | .ok (message, true) =>
    if form.shadows "reset" then
      { defaultPrevented := true, alerts := [message], resetCalled := false,
        thrown := some .typeError }
    else
      { defaultPrevented := true, alerts := [message], resetCalled := true, thrown := none }

/-! ## Sample documents -/

/-- A countdown element with the four individually marked number elements and
an unparsed deadline text. -/
def sampleCountdown (deadline : Option String) : CountdownElement :=
  { deadline := deadline
    content := .markup
      { numbers := ["--", "--", "--", "--"], daysEl := some 0, hoursEl := some 1,
        minutesEl := some 2, secondsEl := some 3, timeBlocks := [] } }

/-- A date parser that understands no string at all. -/
def parseNothing : String → JSNum :=
  fun _ => .nan

/-- Three accordion items with headers of their own, the first two open. -/
def sampleAccordion : List AccordionItem :=
  [⟨["accordion-item", "active"], some 10⟩, ⟨["active", "accordion-item"], some 11⟩,
    ⟨["accordion-item"], some 12⟩]

/-- An accordion whose first item has no header of its own: it contains the
second item, and the first header found in it is the header of that second item
(element 21).  The second item is open. -/
def nestedAccordion : List AccordionItem :=
  [⟨["accordion-item"], some 21⟩, ⟨["accordion-item", "active"], some 21⟩,
    ⟨["accordion-item"], some 22⟩]

/-- Filter buttons all, web, mobile (all marked active) over the sections web
and mobile. -/
def samplePage : FilterPage :=
  { filterButtons := [⟨["filter-btn", "active"], some "all"⟩, ⟨["filter-btn"], some "web"⟩,
      ⟨["filter-btn", "active"], some "mobile"⟩]
    courseCategories := [⟨some "web", ""⟩, ⟨some "mobile", "block"⟩] }

/-- A form whose only controls with an id are the fields `name`, `email` and
`phone` with the given values. -/
def contactFormOf (name email phone : JSString) : ContactForm :=
  { controls := [formField "name" name, formField "email" email, formField "phone" phone] }

/-- The form with the three fields and, after them, a reset button with the id
`reset`. -/
def formWithResetButton (name email phone : JSString) : ContactForm :=
  { controls := [formField "name" name, formField "email" email, formField "phone" phone,
      { id := "reset", name := "", value := utf16 "Clear", inside := true, exposed := true }] }

/-- The form with the three fields and, after them, an input with the name
`querySelector`. -/
def formWithQueryInput (name email phone : JSString) : ContactForm :=
  { controls := [formField "name" name, formField "email" email, formField "phone" phone,
      { id := "", name := "querySelector", value := [], inside := true, exposed := true }] }

/-! ## Theorems -/

theorem timeCalculations_nonneg (d : Int) (h : 0 ≤ d) :
    timeCalculations (.int d) =
      { days := .int (d / 86400000), hours := .int (d % 86400000 / 3600000),
        minutes := .int (d % 3600000 / 60000), seconds := .int (d % 60000 / 1000) } := by
  simp only [timeCalculations, JSNum.floorDiv, JSNum.mod]
  norm_num
  refine ⟨?_, ?_, ?_, ?_⟩
  · exact Int.fdiv_eq_ediv d (by norm_num)
  · rw [Int.tmod_eq_emod h (by norm_num)]; exact Int.fdiv_eq_ediv _ (by norm_num)
  · rw [Int.tmod_eq_emod h (by norm_num)]; exact Int.fdiv_eq_ediv _ (by norm_num)
  · rw [Int.tmod_eq_emod h (by norm_num)]; exact Int.fdiv_eq_ediv _ (by norm_num)

/-- C1: for every integer distance >= 0 the tick computes
days = floor(distance / 86400000), hours = floor((distance mod 86400000) / 3600000),
minutes = floor((distance mod 3600000) / 60000) and
seconds = floor((distance mod 60000) / 1000) (on the integers `/` is floor
division and `%` its remainder), and these decompose the distance:
0 <= hours < 24, 0 <= minutes < 60, 0 <= seconds < 60 and
days*86400000 + hours*3600000 + minutes*60000 + seconds*1000 + distance mod 1000
= distance. -/
theorem timeCalculations_decomposition (distance : Int) (h : 0 ≤ distance) :
    ∃ days hours minutes seconds : Int,
      timeCalculations (.int distance) =
        { days := .int days, hours := .int hours, minutes := .int minutes,
          seconds := .int seconds } ∧
      days = distance / 86400000 ∧
      hours = distance % 86400000 / 3600000 ∧
      minutes = distance % 3600000 / 60000 ∧
      seconds = distance % 60000 / 1000 ∧
      0 ≤ days ∧ 0 ≤ hours ∧ hours < 24 ∧ 0 ≤ minutes ∧ minutes < 60 ∧
      0 ≤ seconds ∧ seconds < 60 ∧
      days * 86400000 + hours * 3600000 + minutes * 60000 + seconds * 1000 +
        distance % 1000 = distance := by
  refine ⟨_, _, _, _, timeCalculations_nonneg distance h, rfl, rfl, rfl, rfl, ?_⟩
  omega

/-- Witness for C1 at distance 90061000 ms: one day, one hour, one minute and
one second. -/
theorem timeCalculations_decomposition_witness :
    ∃ days hours minutes seconds : Int,
      timeCalculations (.int 90061000) =
        { days := .int days, hours := .int hours, minutes := .int minutes,
          seconds := .int seconds } ∧
      days = 90061000 / 86400000 ∧
      hours = 90061000 % 86400000 / 3600000 ∧
      minutes = 90061000 % 3600000 / 60000 ∧
      seconds = 90061000 % 60000 / 1000 ∧
      0 ≤ days ∧ 0 ≤ hours ∧ hours < 24 ∧ 0 ≤ minutes ∧ minutes < 60 ∧
      0 ≤ seconds ∧ seconds < 60 ∧
      days * 86400000 + hours * 3600000 + minutes * 60000 + seconds * 1000 +
        90061000 % 1000 = 90061000 :=
  timeCalculations_decomposition 90061000 (by decide)

/-- C9, as stated, fails: with the deadline 90061000 ms after arming and the
first tick 1001 ms after arming, the tick computes 1 day, 1 hour, 0 minutes and
59 seconds, so the minutes are not 1 and the seconds are neither 0 nor 1. -/
theorem first_tick_counterexample :
    (1000 : Int) ≤ 1001 ∧ (1001 : Int) < 2000 ∧
    timeCalculations (.int (90061000 - 1001)) =
      { days := .int 1, hours := .int 1, minutes := .int 0, seconds := .int 59 } ∧
    (timeCalculations (.int (90061000 - 1001))).minutes ≠ .int 1 ∧
    (timeCalculations (.int (90061000 - 1001))).seconds ≠ .int 0 ∧
    (timeCalculations (.int (90061000 - 1001))).seconds ≠ .int 1 := by
  decide

/-- C9, amended: with the deadline 90061000 ms after arming, for every
first-tick time e with 1000 <= e < 2000 the tick computes days = 1 and
hours = 1; minutes = 1 and seconds = 0 when e = 1000, and minutes = 0 and
seconds = 59 when e > 1000; the four values are never all zero. -/
theorem first_tick_values (e : Int) (h1 : 1000 ≤ e) (h2 : e < 2000) :
    ∃ minutes seconds : Int,
      timeCalculations (.int (90061000 - e)) =
        { days := .int 1, hours := .int 1, minutes := .int minutes,
          seconds := .int seconds } ∧
      (e = 1000 → minutes = 1 ∧ seconds = 0) ∧
      (1000 < e → minutes = 0 ∧ seconds = 59) ∧
      timeCalculations (.int (90061000 - e)) ≠
        { days := .int 0, hours := .int 0, minutes := .int 0, seconds := .int 0 } := by
  rw [timeCalculations_nonneg _ (by omega)]
  refine ⟨(90061000 - e) % 3600000 / 60000, (90061000 - e) % 60000 / 1000, ?_, ?_, ?_, ?_⟩
  · have hd : (90061000 - e) / 86400000 = 1 := by omega
    have hh : (90061000 - e) % 86400000 / 3600000 = 1 := by omega
    rw [hd, hh]
  · omega
  · omega
  · intro hEq
    have hd := congrArg RemainingTime.days hEq
    simp only [JSNum.int.injEq] at hd
    omega

/-- Witness for the amended C9 at e = 1500. -/
theorem first_tick_values_witness :
    ∃ minutes seconds : Int,
      timeCalculations (.int (90061000 - 1500)) =
        { days := .int 1, hours := .int 1, minutes := .int minutes,
          seconds := .int seconds } ∧
      ((1500 : Int) = 1000 → minutes = 1 ∧ seconds = 0) ∧
      ((1000 : Int) < 1500 → minutes = 0 ∧ seconds = 59) ∧
      timeCalculations (.int (90061000 - 1500)) ≠
        { days := .int 0, hours := .int 0, minutes := .int 0, seconds := .int 0 } :=
  first_tick_values 1500 (by decide) (by decide)

/-- C10: the display never counts upward.  For integer distances
0 <= d1 <= d2 the values computed for d1 are lexicographically at most those
computed for d2, and the two are equal if and only if
floor(d1 / 1000) = floor(d2 / 1000). -/
theorem timeCalculations_monotone (d1 d2 : Int) (h1 : 0 ≤ d1) (h12 : d1 ≤ d2) :
    lexLe (timeCalculations (.int d1)) (timeCalculations (.int d2)) ∧
    (timeCalculations (.int d1) = timeCalculations (.int d2) ↔ d1 / 1000 = d2 / 1000) := by
  rw [timeCalculations_nonneg d1 h1, timeCalculations_nonneg d2 (by omega)]
  constructor
  · simp only [lexLe, JSNum.lt, decide_eq_true_eq, JSNum.int.injEq]
    omega
  · simp only [RemainingTime.mk.injEq, JSNum.int.injEq]
    omega

/-- Witness for C10 at d1 = 59999 and d2 = 60000, where the minute rolls over. -/
theorem timeCalculations_monotone_witness :
    lexLe (timeCalculations (.int 59999)) (timeCalculations (.int 60000)) ∧
    (timeCalculations (.int 59999) = timeCalculations (.int 60000) ↔
      (59999 : Int) / 1000 = 60000 / 1000) :=
  timeCalculations_monotone 59999 60000 (by decide) (by decide)

theorem length_setInnerHTML (el : Option Nat) (v : JSNum) (l : List String) :
    (setInnerHTML el v l).length = l.length := by
  cases el <;> simp [setInnerHTML]

theorem getElem?_setInnerHTML (el : Option Nat) (v : JSNum) (l : List String) (i : Nat) :
    (setInnerHTML el v l)[i]? =
      if el = some i ∧ i < l.length then some v.toJSString else l[i]? := by
  cases el with
  | none => simp [setInnerHTML]
  | some j =>
    simp only [setInnerHTML, List.getElem?_set, Option.some.injEq]
    by_cases h : j = i
    · subst h
      by_cases h2 : j < l.length
      · simp [h2]
      · simp [h2, List.getElem?_eq_none (Nat.le_of_not_lt h2)]
    · simp [h]

/-- Writing the same string `z` once more keeps the description "the elements
selected by `W` show `z`, the others are untouched". -/
theorem setInnerHTML_uniform (orig l : List String) (W : List (Option Nat)) (z : String)
    (hlen : l.length = orig.length)
    (h : ∀ i, l[i]? = if some i ∈ W ∧ i < orig.length then some z else orig[i]?)
    (el : Option Nat) (v : JSNum) (hv : v.toJSString = z) :
    (setInnerHTML el v l).length = orig.length ∧
    ∀ i, (setInnerHTML el v l)[i]? =
      if some i ∈ el :: W ∧ i < orig.length then some z else orig[i]? := by
  refine ⟨by rw [length_setInnerHTML, hlen], fun i => ?_⟩
  rw [getElem?_setInnerHTML, h i, hlen, hv]
  by_cases h1 : el = some i <;> by_cases h2 : i < orig.length <;> by_cases h3 : some i ∈ W <;>
    simp [h1, h2, h3, eq_comm]

theorem updateDisplay_uniform (r : RemainingTime) (m : CountdownMarkup) (z : String)
    (hd : r.days.toJSString = z) (hh : r.hours.toJSString = z)
    (hm : r.minutes.toJSString = z) (hs : r.seconds.toJSString = z) (i : Nat) :
    (updateDisplay r m).numbers[i]? =
      if i ∈ writtenElements m ∧ i < m.numbers.length then some z else m.numbers[i]? := by
  obtain ⟨numbers, daysEl, hoursEl, minutesEl, secondsEl, timeBlocks⟩ := m
  have s0 : numbers.length = numbers.length ∧
      ∀ i, numbers[i]? = if some i ∈ ([] : List (Option Nat)) ∧ i < numbers.length then some z
        else numbers[i]? :=
    ⟨rfl, fun i => by simp⟩
  have s1 := setInnerHTML_uniform numbers _ _ z s0.1 s0.2 daysEl r.days hd
  have s2 := setInnerHTML_uniform numbers _ _ z s1.1 s1.2 hoursEl r.hours hh
  have s3 := setInnerHTML_uniform numbers _ _ z s2.1 s2.2 minutesEl r.minutes hm
  have s4 := setInnerHTML_uniform numbers _ _ z s3.1 s3.2 secondsEl r.seconds hs
  by_cases hlen : timeBlocks.length ≥ 4
  · obtain ⟨a, b, c, d, rest, rfl⟩ : ∃ a b c d rest, timeBlocks = a :: b :: c :: d :: rest := by
      match timeBlocks, hlen with
      | a :: b :: c :: d :: rest, _ => exact ⟨a, b, c, d, rest, rfl⟩
    have s5 := setInnerHTML_uniform numbers _ _ z s4.1 s4.2 (some a) r.days hd
    have s6 := setInnerHTML_uniform numbers _ _ z s5.1 s5.2 (some b) r.hours hh
    have s7 := setInnerHTML_uniform numbers _ _ z s6.1 s6.2 (some c) r.minutes hm
    have s8 := setInnerHTML_uniform numbers _ _ z s7.1 s7.2 (some d) r.seconds hs
    have key := s8.2 i
    simp only [updateDisplay, writtenElements, hlen, if_true, List.getElem?_cons_zero,
      List.getElem?_cons_succ]
    rw [key]
    congr 1
    simp [List.reduceOption_mem_iff, eq_comm]
    tauto
  · have key := s4.2 i
    simp only [updateDisplay, writtenElements, hlen, if_false]
    rw [key]
    congr 1
    simp [List.reduceOption_mem_iff, eq_comm]
    tauto

theorem fire_of_cancelled (now : Int) (st : CountdownState) (h : st.interval = none) :
    fire now st = st := by
  obtain ⟨element, interval⟩ := st
  simp only at h
  subst h
  rfl

theorem fireAll_of_cancelled (nows : List Int) (st : CountdownState) (h : st.interval = none) :
    fireAll nows st = st := by
  induction nows with
  | nil => rfl
  | cons now rest ih =>
    simp only [fireAll, List.foldl_cons] at ih ⊢
    rw [fire_of_cancelled now st h]
    exact ih

theorem lt_zero_iff (targetDate : JSNum) (now : Int) :
    JSNum.lt (JSNum.sub targetDate (.int now)) (.int 0) = true ↔
      ∃ t : Int, targetDate = .int t ∧ t - now < 0 := by
  cases targetDate with
  | nan => simp [JSNum.sub, JSNum.lt]
  | int t => simp [JSNum.sub, JSNum.lt]

/-- C6: a tick expires the countdown if and only if distance = deadline - now is
strictly negative; on expiry the timer is cancelled and the content of the
element is exactly the expired message; at distance 0 the timer stays live and
every element the tick writes shows 0; an expired countdown is terminal: no
later firing changes anything. -/
theorem countdown_expiry (targetDate : JSNum) (now : Int) (el : CountdownElement) :
    (isExpired (fire now { element := some el, interval := some targetDate }) ↔
      ∃ t : Int, targetDate = .int t ∧ t - now < 0) ∧
    ((∃ t : Int, targetDate = .int t ∧ t - now < 0) →
      fire now { element := some el, interval := some targetDate } =
        { element := some { el with content := .html expiredMessage }, interval := none }) ∧
    (targetDate = .int now →
      (fire now { element := some el, interval := some targetDate }).interval = some targetDate ∧
      timeCalculations (JSNum.sub targetDate (.int now)) =
        { days := .int 0, hours := .int 0, minutes := .int 0, seconds := .int 0 } ∧
      ∀ m, el.content = .markup m →
        ∃ m', (fire now { element := some el, interval := some targetDate }).element =
            some { el with content := .markup m' } ∧
          ∀ i, m'.numbers[i]? =
            if i ∈ writtenElements m ∧ i < m.numbers.length then some "0" else m.numbers[i]?) ∧
    (∀ st, isExpired st → ∀ nows, fireAll nows st = st) := by
  refine ⟨?_, ?_, ?_, ?_⟩
  · rw [← lt_zero_iff]
    by_cases h : JSNum.lt (JSNum.sub targetDate (.int now)) (.int 0) = true
    · simp [fire, intervalCallback, h, isExpired]
    · simp [fire, intervalCallback, h, isExpired]
  · intro h
    rw [← lt_zero_iff] at h
    simp [fire, intervalCallback, h]
  · intro h
    subst h
    have hz : timeCalculations (JSNum.sub (.int now) (.int now)) =
        { days := .int 0, hours := .int 0, minutes := .int 0, seconds := .int 0 } := by
      simp only [JSNum.sub, sub_self]
      decide
    have hlt : JSNum.lt (JSNum.sub (.int now) (.int now)) (.int 0) = false := by
      simp [JSNum.sub, JSNum.lt]
    refine ⟨by simp [fire, intervalCallback, hlt], hz, fun m hm => ?_⟩
    refine ⟨updateDisplay ⟨.int 0, .int 0, .int 0, .int 0⟩ m, ?_, fun i => ?_⟩
    · simp [fire, intervalCallback, hlt, hz, hm, updateContent]
    · exact updateDisplay_uniform ⟨.int 0, .int 0, .int 0, .int 0⟩ m "0" rfl rfl rfl rfl i
  · intro st h nows
    exact fireAll_of_cancelled nows st h.1

/-- Witness for C6: a deadline 1000 ms in the past expires the sample countdown
at the first tick, and later firings leave the expired state as it is. -/
theorem countdown_expiry_witness :
    fire 2000 { element := some (sampleCountdown (some "2030-01-01")), interval := some (.int 1000) } =
      { element := some { sampleCountdown (some "2030-01-01") with content := .html expiredMessage },
        interval := none } ∧
    fireAll [3000, 4000]
        { element := some { sampleCountdown (some "2030-01-01") with content := .html expiredMessage },
          interval := none } =
      { element := some { sampleCountdown (some "2030-01-01") with content := .html expiredMessage },
        interval := none } :=
  ⟨(countdown_expiry (.int 1000) 2000 (sampleCountdown (some "2030-01-01"))).2.1
      ⟨1000, rfl, by decide⟩,
    (countdown_expiry (.int 1000) 2000 (sampleCountdown (some "2030-01-01"))).2.2.2
      { element := some { sampleCountdown (some "2030-01-01") with content := .html expiredMessage },
        interval := none }
      (by decide) [3000, 4000]⟩

/-- C7, as stated, fails: a deadline text that is present but is not a date
still schedules the timer, and the first tick writes `NaN` into the number
elements. -/
theorem unparsable_deadline_counterexample :
    (initCountdownTimers parseNothing (some (sampleCountdown (some "soon")))).interval =
      some .nan ∧
    (fire 0 (initCountdownTimers parseNothing (some (sampleCountdown (some "soon"))))).element =
      some
        { deadline := some "soon"
          content := .markup
            { numbers := ["NaN", "NaN", "NaN", "NaN"], daysEl := some 0, hoursEl := some 1,
              minutesEl := some 2, secondsEl := some 3, timeBlocks := [] } } := by
  decide

/-- C7, amended: if the deadline attribute of the countdown element is absent or
empty, the countdown stays inert: no timer is scheduled and no firing ever
changes the element.  A non-empty deadline that does not parse as a date still
schedules the timer; that timer is never cancelled and each tick writes `NaN`
for all four values. -/
theorem countdown_inert (parseDate : String → JSNum) (el : CountdownElement) :
    (el.deadline = none ∨ el.deadline = some "" →
      (initCountdownTimers parseDate (some el)).interval = none ∧
      ∀ nows, fireAll nows (initCountdownTimers parseDate (some el)) =
        { element := some el, interval := none }) ∧
    (∀ d, el.deadline = some d → d ≠ "" → parseDate d = .nan →
      initCountdownTimers parseDate (some el) = { element := some el, interval := some .nan } ∧
      ∀ now (e : CountdownElement),
        fire now { element := some e, interval := some .nan } =
          { element := some
              { e with content := updateContent ⟨.nan, .nan, .nan, .nan⟩ e.content }
            interval := some .nan }) := by
  constructor
  · intro h
    have hinit : initCountdownTimers parseDate (some el) = { element := some el, interval := none } := by
      rcases h with h | h <;> simp [initCountdownTimers, h]
    rw [hinit]
    exact ⟨rfl, fun nows => fireAll_of_cancelled nows _ rfl⟩
  · intro d hd hne hnan
    refine ⟨by simp [initCountdownTimers, hd, hne, hnan], fun now e => ?_⟩
    rfl

/-- Witness for the amended C7: the sample countdown without a deadline
attribute stays as it is whenever the timer would fire. -/
theorem countdown_inert_witness :
    (initCountdownTimers parseNothing (some (sampleCountdown none))).interval = none ∧
    ∀ nows, fireAll nows (initCountdownTimers parseNothing (some (sampleCountdown none))) =
      { element := some (sampleCountdown none), interval := none } :=
  (countdown_inert parseNothing (sampleCountdown none)).1 (Or.inl rfl)

theorem contains_remove (cl : List String) (t : String) :
    classList.contains (classList.remove cl t) t = false := by
  simp [classList.contains, classList.remove, List.elem_eq_mem]

theorem contains_toggle (cl : List String) (t : String) :
    classList.contains (classList.toggle cl t) t = !classList.contains cl t := by
  by_cases h : classList.contains cl t = true
  · simp only [classList.toggle, h, if_true, contains_remove]
    rfl
  · simp only [classList.toggle, h]
    simp only [Bool.not_eq_true] at h
    simp [classList.contains, List.elem_eq_mem, h]

theorem contains_add (cl : List String) (t : String) :
    classList.contains (classList.add cl t) t = true := by
  by_cases h : classList.contains cl t = true
  · simp only [classList.add, h, if_true]
  · simp only [classList.add, h]
    simp [classList.contains, List.elem_eq_mem]

/-- The open markers after the handler of item `i` has run. -/
theorem isOpen_accordionHandler (i : Nat) (items : List AccordionItem) :
    (accordionHandler i items).map AccordionItem.isOpen =
      items.mapIdx fun j item => decide (j = i) && !item.isOpen := by
  apply List.ext_getElem?
  intro j
  simp only [accordionHandler, closeOthers, List.getElem?_map, List.getElem?_modify,
    List.getElem?_mapIdx]
  cases hj : items[j]? with
  | none => simp
  | some item =>
    by_cases hji : j = i
    · subst hji
      simp [AccordionItem.isOpen, contains_toggle]
    · have hij : ¬ i = j := fun h => hji h.symm
      by_cases ho : classList.contains item.classList "active" = true
      · simp [AccordionItem.isOpen, hji, hij, ho, contains_remove]
      · simp [AccordionItem.isOpen, hji, hij, ho]

theorem countP_le_one_of_others_false {α : Type} (p : α → Bool) (l : List α) (i : Nat)
    (h : ∀ j x, j ≠ i → l[j]? = some x → p x = false) : l.countP p ≤ 1 := by
  induction l generalizing i with
  | nil => simp
  | cons a l ih =>
    cases i with
    | zero =>
      have hz : l.countP p = 0 := by
        rw [List.countP_eq_zero]
        intro x hx
        obtain ⟨n, hn⟩ := List.mem_iff_getElem?.mp hx
        have := h (n + 1) x (by omega) (by simpa using hn)
        simp [this]
      rw [List.countP_cons, hz]
      split <;> omega
    | succ i =>
      have ha : p a = false := h 0 a (by omega) (by simp)
      have := ih i (fun j x hj hx => h (j + 1) x (by omega) (by simpa using hx))
      rw [List.countP_cons, ha]
      simpa using this

theorem accordionHandler_others_closed (i : Nat) (items : List AccordionItem) (j : Nat)
    (other : AccordionItem) (hj : j ≠ i) (hother : (accordionHandler i items)[j]? = some other) :
    other.isOpen = false := by
  have h : ((accordionHandler i items)[j]?).map AccordionItem.isOpen =
      (items[j]?).map fun it => decide (j = i) && !it.isOpen := by
    rw [← List.getElem?_map, isOpen_accordionHandler, List.getElem?_mapIdx]
  rw [hother] at h
  cases hj' : items[j]? with
  | none => simp [hj'] at h
  | some it => simpa [hj', hj] using h

theorem accordionHandler_toggles (i : Nat) (items : List AccordionItem) (item : AccordionItem)
    (hi : items[i]? = some item) :
    ∃ item', (accordionHandler i items)[i]? = some item' ∧
      (item'.isOpen = true ↔ item.isOpen = false) := by
  have h : ((accordionHandler i items)[i]?).map AccordionItem.isOpen =
      (items[i]?).map fun it => decide (i = i) && !it.isOpen := by
    rw [← List.getElem?_map, isOpen_accordionHandler, List.getElem?_mapIdx]
  rw [hi] at h
  cases h' : (accordionHandler i items)[i]? with
  | none => simp [h'] at h
  | some item' =>
    refine ⟨item', rfl, ?_⟩
    simp only [h', Option.map_some', Option.some.injEq, decide_True, Bool.true_and] at h
    rw [h]
    simp

/-- After a run of handlers that is not empty, at most one item is open. -/
theorem countP_isOpen_foldl (handlers : List Nat) (items : List AccordionItem)
    (h : handlers ≠ []) :
    (handlers.foldl (fun st i => accordionHandler i st) items).countP AccordionItem.isOpen ≤ 1 := by
  obtain ⟨init, last, rfl⟩ : ∃ init last, handlers = init ++ [last] :=
    ⟨handlers.dropLast, handlers.getLast h, (List.dropLast_append_getLast h).symm⟩
  rw [List.foldl_append]
  exact countP_le_one_of_others_false _ _ last
    (fun j other hj hother => accordionHandler_others_closed last _ j other hj hother)

theorem registerFrom_filter_nil (h k : Nat) (items : List AccordionItem)
    (hno : ∀ (j : Nat) (other : AccordionItem), items[j]? = some other → other.header ≠ some h) :
    (registerFrom k items).filter (fun l => l.1 == h) = [] := by
  induction items generalizing k with
  | nil => rfl
  | cons item rest ih =>
    have hrest := ih (k + 1) (fun j other hj => hno (j + 1) other (by simpa using hj))
    have hitem := hno 0 item (by simp)
    cases hh : item.header with
    | none => simpa [registerFrom, hh] using hrest
    | some g =>
      have hg : g ≠ h := fun e => hitem (by rw [hh, e])
      simpa [registerFrom, hh, hg] using hrest

/-- A click on a header that is the header of item `i` only, and lies in no
other header, runs the handler of item `i` and no other. -/
theorem clickHandlers_own_header (items : List AccordionItem) (i h : Nat) (item : AccordionItem)
    (hi : items[i]? = some item) (hh : item.header = some h)
    (hothers : ∀ (j : Nat) (other : AccordionItem), j ≠ i → items[j]? = some other →
      other.header ≠ some h) :
    clickHandlers (initAccordions items) [h] = [i] := by
  have key : ∀ (k : Nat) (items : List AccordionItem) (i : Nat), items[i]? = some item →
      (∀ (j : Nat) (other : AccordionItem), j ≠ i → items[j]? = some other →
        other.header ≠ some h) →
      ((registerFrom k items).filter (fun l => l.1 == h)).map Prod.snd = [k + i] := by
    intro k items
    induction items generalizing k with
    | nil => intro i hi; simp at hi
    | cons first rest ih =>
      intro i hi hothers
      cases i with
      | zero =>
        simp only [List.getElem?_cons_zero, Option.some.injEq] at hi
        subst hi
        have hrest := registerFrom_filter_nil h (k + 1) rest
          (fun j other hj => hothers (j + 1) other (by omega) (by simpa using hj))
        simp [registerFrom, hh, hrest]
      | succ i =>
        have hfirst := hothers 0 first (by omega) (by simp)
        have hrest := ih (k + 1) i (by simpa using hi)
          (fun j other hj hjo => hothers (j + 1) other (by omega) (by simpa using hjo))
        have hk : k + 1 + i = k + (i + 1) := by omega
        cases hf : first.header with
        | none => simpa [registerFrom, hf, hk] using hrest
        | some g =>
          have hg : g ≠ h := fun e => hfirst (by rw [hf, e])
          simpa [registerFrom, hf, hg, hk] using hrest
  have := key 0 items i hi hothers
  simpa [clickHandlers, initAccordions] using this

/-- C4, as stated, fails: in the nested accordion the header of the open second
item is also the first header of the first item, so a click on it runs the
handlers of both items, and the second item, open before the click, is open
after it. -/
theorem shared_header_counterexample :
    nestedAccordion.map AccordionItem.isOpen = [false, true, false] ∧
    clickHandlers (initAccordions nestedAccordion) [21] = [0, 1] ∧
    (clickHeader [21] nestedAccordion).map AccordionItem.isOpen = [false, true, false] := by
  decide

/-- C4, amended: for every state of the accordion and every click that runs the
handler of item i and no other handler, afterwards every item other than i is
closed and item i is open if and only if it was closed before; a click on a
header that is the header of item i only and lies in no other header is such a
click.  After every click that runs at least one handler at most one item is
open.  From three
closed items with three different headers, the clicks on the first header, the
second and the second again leave in turn only the first item open, only the
second open, and none open. -/
theorem accordion_click (items : List AccordionItem) (path : List Nat) (i : Nat)
    (item : AccordionItem) (hi : items[i]? = some item)
    (hrun : clickHandlers (initAccordions items) path = [i]) :
    (clickHeader path items).length = items.length ∧
    (∀ (j : Nat) (other : AccordionItem), j ≠ i → (clickHeader path items)[j]? = some other →
      other.isOpen = false) ∧
    (∃ item', (clickHeader path items)[i]? = some item' ∧
      (item'.isOpen = true ↔ item.isOpen = false)) ∧
    (∀ h : Nat, item.header = some h →
      (∀ (j : Nat) (other : AccordionItem), j ≠ i → items[j]? = some other →
        other.header ≠ some h) →
      clickHandlers (initAccordions items) [h] = [i]) ∧
    (∀ (anyPath : List Nat) (anyItems : List AccordionItem),
      clickHandlers (initAccordions anyItems) anyPath ≠ [] →
      (clickHeader anyPath anyItems).countP AccordionItem.isOpen ≤ 1) ∧
    (∀ (a b c : AccordionItem) (ha hb hc : Nat),
      a.header = some ha → b.header = some hb → c.header = some hc →
      ha ≠ hb → ha ≠ hc → hb ≠ hc →
      a.isOpen = false → b.isOpen = false → c.isOpen = false →
      (clickHeader [ha] [a, b, c]).map AccordionItem.isOpen = [true, false, false] ∧
      (clickHeader [hb] (clickHeader [ha] [a, b, c])).map AccordionItem.isOpen =
        [false, true, false] ∧
      (clickHeader [hb] (clickHeader [hb] (clickHeader [ha] [a, b, c]))).map AccordionItem.isOpen =
        [false, false, false]) := by
  have hclick : clickHeader path items = accordionHandler i items := by
    simp [clickHeader, hrun]
  refine ⟨?_, ?_, ?_, ?_, ?_, ?_⟩
  · rw [hclick]
    simp [accordionHandler, closeOthers]
  · intro j other hj hother
    rw [hclick] at hother
    exact accordionHandler_others_closed i items j other hj hother
  · rw [hclick]
    exact accordionHandler_toggles i items item hi
  · intro h hh hothers
    exact clickHandlers_own_header items i h item hi hh hothers
  · intro anyPath anyItems hne
    exact countP_isOpen_foldl _ anyItems hne
  · intro a b c ha hb hc hah hbh hch hab hac hbc hao hbo hco
    simp only [AccordionItem.isOpen] at hao hbo hco
    have hba : hb ≠ ha := fun h => hab h.symm
    have hca : hc ≠ ha := fun h => hac h.symm
    have hcb : hc ≠ hb := fun h => hbc h.symm
    have e1 : clickHeader [ha] [a, b, c] =
        [{ a with classList := classList.toggle a.classList "active" }, b, c] := by
      simp [clickHeader, clickHandlers, initAccordions, registerFrom, hah, hbh, hch, hba, hca,
        accordionHandler, closeOthers, List.mapIdx_cons, List.modify, hbo, hco]
    have e2 : clickHeader [hb] [{ a with classList := classList.toggle a.classList "active" }, b, c] =
        [{ a with classList :=
            classList.remove (classList.toggle a.classList "active") "active" },
          { b with classList := classList.toggle b.classList "active" }, c] := by
      simp [clickHeader, clickHandlers, initAccordions, registerFrom, hah, hbh, hch, hab, hcb,
        accordionHandler, closeOthers, List.mapIdx_cons, List.modify, hco, contains_toggle, hao]
    have e3 : clickHeader [hb]
        [{ a with classList :=
            classList.remove (classList.toggle a.classList "active") "active" },
          { b with classList := classList.toggle b.classList "active" }, c] =
        [{ a with classList :=
            classList.remove (classList.toggle a.classList "active") "active" },
          { b with classList :=
            classList.toggle (classList.toggle b.classList "active") "active" }, c] := by
      simp [clickHeader, clickHandlers, initAccordions, registerFrom, hah, hbh, hch, hab, hcb,
        accordionHandler, closeOthers, List.mapIdx_cons, List.modify, hco, contains_remove]
    rw [e1, e2, e3]
    simp [AccordionItem.isOpen, contains_toggle, contains_remove, hao, hbo, hco]

/-- Witness for the amended C4: with the first two of three items open, a click
on the header of the third, which is its own, closes the other two and opens
the third. -/
theorem accordion_click_witness :
    (clickHeader [12] sampleAccordion).length = sampleAccordion.length ∧
    ∃ item', (clickHeader [12] sampleAccordion)[2]? = some item' ∧
      (item'.isOpen = true ↔ AccordionItem.isOpen ⟨["accordion-item"], some 12⟩ = false) :=
  ⟨(accordion_click sampleAccordion [12] 2 ⟨["accordion-item"], some 12⟩ rfl (by decide)).1,
    (accordion_click sampleAccordion [12] 2 ⟨["accordion-item"], some 12⟩ rfl (by decide)).2.2.1⟩

theorem filterHandler_buttons (i : Nat) (category : Option String) (page : FilterPage) (j : Nat) :
    ((filterHandler i category page).filterButtons[j]?).map
        (fun btn => classList.contains btn.classList "active") =
      (page.filterButtons[j]?).map fun _ => decide (j = i) := by
  simp only [filterHandler, List.getElem?_modify, List.getElem?_map]
  cases page.filterButtons[j]? with
  | none => simp
  | some btn =>
    by_cases hji : j = i
    · subst hji
      simp [contains_add]
    · have hij : ¬ i = j := fun h => hji h.symm
      simp [hji, hij, contains_remove]

/-- C5: after a click on filter button i (both node lists non-empty), the clicked
button is the only one carrying `active`, and each section keeps its tag and is
shown (`block`) if and only if the tag of the button is `all` or equals the tag
of the section, and hidden (`none`) otherwise.  In particular a button tagged
`all` shows every section, and with sections tagged web and mobile a button
tagged web leaves only the web section shown. -/
theorem filter_click (page : FilterPage) (i : Nat) (button : FilterButton)
    (hb : page.filterButtons[i]? = some button) (hs : page.courseCategories ≠ []) :
    (clickFilter i page).filterButtons.length = page.filterButtons.length ∧
    (∀ (j : Nat) (btn : FilterButton), (clickFilter i page).filterButtons[j]? = some btn →
      (classList.contains btn.classList "active" = true ↔ j = i)) ∧
    (∃ btn, (clickFilter i page).filterButtons[i]? = some btn ∧
      classList.contains btn.classList "active" = true) ∧
    (clickFilter i page).courseCategories.length = page.courseCategories.length ∧
    (∀ (j : Nat) (sec : CourseCategory), page.courseCategories[j]? = some sec →
      ∃ sec' : CourseCategory, (clickFilter i page).courseCategories[j]? = some sec' ∧
        sec'.category = sec.category ∧
        (sec'.display = "block" ∨ sec'.display = "none") ∧
        (sec'.display = "block" ↔
          button.category = some "all" ∨ sec.category = button.category)) ∧
    (button.category = some "all" →
      ∀ sec ∈ (clickFilter i page).courseCategories, sec.display = "block") ∧
    (button.category = some "web" →
      ∀ d1 d2, page.courseCategories = [⟨some "web", d1⟩, ⟨some "mobile", d2⟩] →
        (clickFilter i page).courseCategories = [⟨some "web", "block"⟩, ⟨some "mobile", "none"⟩]) := by
  have hlenb : page.filterButtons.length > 0 := by
    cases hbs : page.filterButtons with
    | nil => simp [hbs] at hb
    | cons _ _ => simp
  have hlens : page.courseCategories.length > 0 := List.length_pos.mpr hs
  have hclick : clickFilter i page = filterHandler i button.category page := by
    simp [clickFilter, hlenb, hlens, hb]
  rw [hclick]
  have hbtn := filterHandler_buttons i button.category page
  refine ⟨by simp [filterHandler], ?_, ?_, by simp [filterHandler], ?_, ?_, ?_⟩
  · intro j btn hj
    have := hbtn j
    rw [hj] at this
    cases hj' : page.filterButtons[j]? with
    | none => simp [hj'] at this
    | some b0 =>
      simp only [hj', Option.map_some', Option.some.injEq] at this
      rw [this]
      simp
  · have := hbtn i
    rw [hb] at this
    cases hi' : (filterHandler i button.category page).filterButtons[i]? with
    | none => simp [hi'] at this
    | some btn =>
      refine ⟨btn, rfl, ?_⟩
      simpa [hi'] using this
  · intro j sec hj
    by_cases hc : button.category = some "all" ∨ sec.category = button.category
    · exact ⟨{ sec with display := "block" }, by simp [filterHandler, hj, hc], rfl, Or.inl rfl,
        by simp [hc]⟩
    · refine ⟨{ sec with display := "none" }, by simp [filterHandler, hj, hc], rfl, Or.inr rfl, ?_⟩
      simp only [hc, iff_false]
      decide
  · intro hall sec hsec
    simp only [filterHandler, hall, true_or, if_true, List.mem_map] at hsec
    obtain ⟨s0, _, rfl⟩ := hsec
    rfl
  · intro hweb d1 d2 hsecs
    simp [filterHandler, hweb, hsecs]

/-- Witness for C5: on the sample page a click on the button tagged web marks
only that button and shows only the web section. -/
theorem filter_click_witness :
    (clickFilter 1 samplePage).filterButtons.length = samplePage.filterButtons.length ∧
    (clickFilter 1 samplePage).courseCategories =
      [⟨some "web", "block"⟩, ⟨some "mobile", "none"⟩] :=
  ⟨(filter_click samplePage 1 ⟨["filter-btn"], some "web"⟩ rfl (by decide)).1,
    (filter_click samplePage 1 ⟨["filter-btn"], some "web"⟩ rfl (by decide)).2.2.2.2.2.2 rfl
      "" "block" rfl⟩

theorem plusLoop_iff (a : Atom) (k : JSString → Bool) (s : JSString) :
    plusLoop a k s = true ↔
      ∃ pre rest, pre ≠ [] ∧ s = pre ++ rest ∧ (∀ c ∈ pre, a.matches c = true) ∧
        k rest = true := by
  induction s with
  | nil =>
    simp only [plusLoop, Bool.false_eq_true, false_iff]
    rintro ⟨pre, rest, hne, heq, _⟩
    cases pre with
    | nil => exact hne rfl
    | cons p pre => simp at heq
  | cons c s ih =>
    simp only [plusLoop, Bool.and_eq_true, Bool.or_eq_true, ih]
    constructor
    · rintro ⟨hc, ⟨pre, rest, _, rfl, hall, hk⟩ | hk⟩
      · exact ⟨c :: pre, rest, by simp, rfl, by simpa [hc] using hall, hk⟩
      · exact ⟨[c], s, by simp, rfl, by simpa using hc, hk⟩
    · rintro ⟨pre, rest, hne, heq, hall, hk⟩
      cases pre with
      | nil => exact absurd rfl hne
      | cons p pre =>
        simp only [List.cons_append, List.cons.injEq] at heq
        obtain ⟨rfl, rfl⟩ := heq
        refine ⟨hall c (by simp), ?_⟩
        cases pre with
        | nil => right; simpa using hk
        | cons q pre =>
          left
          exact ⟨q :: pre, rest, by simp, rfl, fun x hx => hall x (by simp [hx]), hk⟩

theorem searchLater_bol (ts : List Term) (s : JSString) :
    searchLater (.bol :: ts) s = false := by
  induction s with
  | nil => rfl
  | cons c s ih => simp [searchLater, matchHere, ih]

theorem matches_notSpaceAt (c : Nat) :
    notSpaceAt.matches c = true ↔ isWhiteSpace c = false ∧ c ≠ 64 := by
  simp [notSpaceAt, Atom.matches, ClassItem.covers]

theorem matchHere_one_lit (d : Nat) (ts : List Term) (b : Bool) (s : JSString) :
    matchHere (.one (.lit d) :: ts) b s = true ↔
      ∃ rest, s = d :: rest ∧ matchHere ts false rest = true := by
  cases s with
  | nil => simp [matchHere]
  | cons c s =>
    simp only [matchHere, Atom.matches, Bool.and_eq_true, beq_iff_eq, List.cons.injEq]
    constructor
    · rintro ⟨rfl, h⟩
      exact ⟨s, ⟨rfl, rfl⟩, h⟩
    · rintro ⟨rest, ⟨rfl, rfl⟩, h⟩
      exact ⟨rfl, h⟩

/-- The pattern accepts exactly the strings of shape `a@b.c`. -/
theorem regexTest_emailRegex_iff (s : JSString) :
    regexTest emailRegex s = true ↔
      ∃ a b c : JSString, s = a ++ [64] ++ b ++ [46] ++ c ∧ a ≠ [] ∧ b ≠ [] ∧ c ≠ [] ∧
        ∀ x ∈ a ++ b ++ c, isWhiteSpace x = false ∧ x ≠ 64 := by
  simp only [regexTest, emailRegex, searchLater_bol, Bool.or_false]
  simp only [matchHere, Bool.true_and, plusLoop_iff, matchHere_one_lit, matches_notSpaceAt,
    Bool.and_true, List.isEmpty_iff]
  constructor
  · rintro ⟨a, r1, ha, rfl, hagood, r2, rfl, b, r3, hb, rfl, hbgood, r4, rfl, c, r5, hc, rfl,
      hcgood, rfl⟩
    refine ⟨a, b, c, by simp, ha, hb, hc, ?_⟩
    intro x hx
    simp only [List.mem_append] at hx
    rcases hx with (hx | hx) | hx
    · exact hagood x hx
    · exact hbgood x hx
    · exact hcgood x hx
  · rintro ⟨a, b, c, rfl, ha, hb, hc, hgood⟩
    refine ⟨a, _, ha, by simp; rfl, fun x hx => hgood x (by simp [hx]), _, rfl, b, _, hb, rfl,
      fun x hx => hgood x (by simp [hx]), _, rfl, c, [], hc, by simp,
      fun x hx => hgood x (by simp [hx]), rfl⟩

theorem split_at_index (l : List Nat) (k x : Nat) (h : l[k]? = some x) :
    l = l.take k ++ x :: l.drop (k + 1) := by
  obtain ⟨hk, hx⟩ := List.getElem?_eq_some_iff.mp h
  have := List.drop_eq_getElem_cons hk
  rw [hx] at this
  rw [← this, List.take_append_drop]

/-- C3: the email pattern accepts a string if and only if it has the shape
a@b.c with a, b, c non-empty and free of whitespace and of `@`; equivalently,
the string has no whitespace, exactly one `@`, at least one character before
the `@`, and after the `@` a `.` that is neither the first nor the last
character of that part. -/
theorem emailRegex_accepts (s : JSString) :
    (regexTest emailRegex s = true ↔
      ∃ a b c : JSString, s = a ++ [64] ++ b ++ [46] ++ c ∧ a ≠ [] ∧ b ≠ [] ∧ c ≠ [] ∧
        ∀ x ∈ a ++ b ++ c, isWhiteSpace x = false ∧ x ≠ 64) ∧
    (regexTest emailRegex s = true ↔
      (∀ x ∈ s, isWhiteSpace x = false) ∧ s.count 64 = 1 ∧
        ∃ before after : JSString, s = before ++ 64 :: after ∧ before ≠ [] ∧
          ∃ k, 0 < k ∧ k + 1 < after.length ∧ after[k]? = some 46) := by
  refine ⟨regexTest_emailRegex_iff s, ?_⟩
  rw [regexTest_emailRegex_iff]
  constructor
  · rintro ⟨a, b, c, rfl, ha, hb, hc, hgood⟩
    have hga : ∀ x ∈ a, isWhiteSpace x = false ∧ x ≠ 64 := fun x hx => hgood x (by simp [hx])
    have hgb : ∀ x ∈ b, isWhiteSpace x = false ∧ x ≠ 64 := fun x hx => hgood x (by simp [hx])
    have hgc : ∀ x ∈ c, isWhiteSpace x = false ∧ x ≠ 64 := fun x hx => hgood x (by simp [hx])
    refine ⟨?_, ?_, a, b ++ 46 :: c, by simp, ha, b.length, ?_, ?_, ?_⟩
    · intro x hx
      simp only [List.mem_append, List.mem_singleton] at hx
      rcases hx with (((hx | rfl) | hx) | rfl) | hx
      · exact (hga x hx).1
      · decide
      · exact (hgb x hx).1
      · decide
      · exact (hgc x hx).1
    · have ca : a.count 64 = 0 := List.count_eq_zero.mpr fun h => (hga 64 h).2 rfl
      have cb : b.count 64 = 0 := List.count_eq_zero.mpr fun h => (hgb 64 h).2 rfl
      have cc : c.count 64 = 0 := List.count_eq_zero.mpr fun h => (hgc 64 h).2 rfl
      simp [List.count_append, ca, cb, cc]
    · exact List.length_pos.mpr hb
    · have := List.length_pos.mpr hc
      simp only [List.length_append, List.length_cons]
      omega
    · rw [List.getElem?_append_right (le_refl _)]
      simp
  · rintro ⟨hws, hcount, before, after, rfl, hbefore, k, hk0, hk1, hk⟩
    have hc : before.count 64 = 0 ∧ after.count 64 = 0 := by
      simp only [List.count_append, List.count_cons_self] at hcount
      omega
    have hnb : 64 ∉ before := List.count_eq_zero.mp hc.1
    have hna : 64 ∉ after := List.count_eq_zero.mp hc.2
    have hsplit := split_at_index after k 46 hk
    refine ⟨before, after.take k, after.drop (k + 1), ?_, hbefore, ?_, ?_, ?_⟩
    · simp only [List.append_assoc, List.singleton_append, List.cons_append, List.nil_append]
      rw [← hsplit]
    · intro h
      have := congrArg List.length h
      simp only [List.length_take, List.length_nil] at this
      omega
    · intro h
      have := congrArg List.length h
      simp only [List.length_drop, List.length_nil] at this
      omega
    · intro x hx
      simp only [List.mem_append] at hx
      have hmem : x ∈ before ∨ x ∈ after := by
        rcases hx with (hx | hx) | hx
        · exact Or.inl hx
        · exact Or.inr (List.mem_of_mem_take hx)
        · exact Or.inr (List.mem_of_mem_drop hx)
      refine ⟨hws x (by simp only [List.mem_append, List.mem_cons]; tauto), ?_⟩
      rintro rfl
      rcases hmem with h | h
      · exact hnb h
      · exact hna h

theorem validate_of_fields (form : ContactForm) (n e p : FormControl)
    (hq : form.shadows "querySelector" = false)
    (hn : form.querySelector "name" = some n) (he : form.querySelector "email" = some e)
    (hp : form.querySelector "phone" = some p) :
    validate form =
      if (trim n.value).isEmpty || (trim e.value).isEmpty || (trim p.value).isEmpty then
        .ok (requiredMessage, false)
      else if !regexTest emailRegex (trim e.value) then .ok (emailMessage, false)
      else .ok (successMessage, true) := by
  simp [validate, trimmedValue, hq, hn, he, hp]

/-- C2, as stated, fails.  With the values (A, a@b.co, 1) on a form that also
has a reset button with id `reset`, the handler shows the success message and
then ends with a `TypeError` at line 241, and the form is not reset.  With an
empty name on a form that also has an input named `querySelector`, the handler
ends with a `TypeError` at line 221 and shows no message. -/
theorem submit_shadowed_counterexample :
    submitHandler (formWithResetButton (utf16 "A") (utf16 "a@b.co") (utf16 "1")) =
      { defaultPrevented := true, alerts := [successMessage], resetCalled := false,
        thrown := some .typeError } ∧
    submitHandler (formWithQueryInput [] (utf16 "a@b.co") (utf16 "1")) =
      { defaultPrevented := true, alerts := [], resetCalled := false,
        thrown := some .typeError } := by
  decide

/-- C2, amended: on a form that has no control as a named property under the
names `querySelector` and `reset`, for all values of the fields name, email and
phone the submit handler ends without an exception and shows exactly one
message.  If one of the three values is empty after trimming, the message is the
required-fields one and the form is not reset; otherwise, if the trimmed email
does not match the pattern, the message is the email one and the form is not
reset; otherwise the message is the success one and the form is reset.  The form
is reset if and only if the message is the success one.  On the form with just
the three fields an empty name gives the required-fields message, (A, bad, 1)
the email message and (A, a@b.co, 1) success with a reset. -/
theorem submit_outcome (form : ContactForm) (n e p : FormControl)
    (hq : form.shadows "querySelector" = false) (hr : form.shadows "reset" = false)
    (hn : form.querySelector "name" = some n) (he : form.querySelector "email" = some e)
    (hp : form.querySelector "phone" = some p) :
    (submitHandler form).thrown = none ∧
    (trim n.value = [] ∨ trim e.value = [] ∨ trim p.value = [] →
      (submitHandler form).alerts = [requiredMessage] ∧
      (submitHandler form).resetCalled = false) ∧
    (¬ (trim n.value = [] ∨ trim e.value = [] ∨ trim p.value = []) →
      regexTest emailRegex (trim e.value) = false →
      (submitHandler form).alerts = [emailMessage] ∧
      (submitHandler form).resetCalled = false) ∧
    (¬ (trim n.value = [] ∨ trim e.value = [] ∨ trim p.value = []) →
      regexTest emailRegex (trim e.value) = true →
      (submitHandler form).alerts = [successMessage] ∧
      (submitHandler form).resetCalled = true) ∧
    ((submitHandler form).resetCalled = true ↔
      (submitHandler form).alerts = [successMessage]) ∧
    (∀ email phone : JSString,
      submitHandler (contactFormOf [] email phone) =
        { defaultPrevented := true, alerts := [requiredMessage], resetCalled := false,
          thrown := none }) ∧
    submitHandler (contactFormOf (utf16 "A") (utf16 "bad") (utf16 "1")) =
      { defaultPrevented := true, alerts := [emailMessage], resetCalled := false,
        thrown := none } ∧
    submitHandler (contactFormOf (utf16 "A") (utf16 "a@b.co") (utf16 "1")) =
      { defaultPrevented := true, alerts := [successMessage], resetCalled := true,
        thrown := none } := by
  have hv := validate_of_fields form n e p hq hn he hp
  simp only [List.isEmpty_iff, Bool.or_eq_true, decide_eq_true_eq] at hv
  have hs : submitHandler form =
      if (trim n.value = [] ∨ trim e.value = []) ∨ trim p.value = [] then
        { defaultPrevented := true, alerts := [requiredMessage], resetCalled := false,
          thrown := none }
      else if regexTest emailRegex (trim e.value) = true then
        { defaultPrevented := true, alerts := [successMessage], resetCalled := true,
          thrown := none }
      else
        { defaultPrevented := true, alerts := [emailMessage], resetCalled := false,
          thrown := none } := by
    by_cases h1 : (trim n.value = [] ∨ trim e.value = []) ∨ trim p.value = []
    · simp [submitHandler, hv, h1]
    · by_cases h2 : regexTest emailRegex (trim e.value) = true
      · simp [submitHandler, hv, h1, h2, hr]
      · simp [submitHandler, hv, h1, h2]
  refine ⟨?_, ?_, ?_, ?_, ?_, ?_, ?_, ?_⟩
  · rw [hs]
    split_ifs <;> rfl
  · intro h
    have h' : (trim n.value = [] ∨ trim e.value = []) ∨ trim p.value = [] := by tauto
    rw [hs, if_pos h']
    exact ⟨rfl, rfl⟩
  · intro h hre
    have h' : ¬ ((trim n.value = [] ∨ trim e.value = []) ∨ trim p.value = []) := by tauto
    rw [hs, if_neg h', if_neg (by simp [hre])]
    exact ⟨rfl, rfl⟩
  · intro h hre
    have h' : ¬ ((trim n.value = [] ∨ trim e.value = []) ∨ trim p.value = []) := by tauto
    rw [hs, if_neg h', if_pos hre]
    exact ⟨rfl, rfl⟩
  · rw [hs]
    split_ifs <;> decide
  · intro email phone
    rfl
  · decide
  · decide

/-- Witness for the amended C2: a form with just the three fields, whose phone
field holds only blanks, gets the required-fields message and is not reset. -/
theorem submit_outcome_witness :
    (submitHandler (contactFormOf (utf16 "Ann") (utf16 "ann@example.org") (utf16 "  "))).alerts =
      [requiredMessage] ∧
    (submitHandler (contactFormOf (utf16 "Ann") (utf16 "ann@example.org")
      (utf16 "  "))).resetCalled = false :=
  (submit_outcome (contactFormOf (utf16 "Ann") (utf16 "ann@example.org") (utf16 "  "))
    (formField "name" (utf16 "Ann")) (formField "email" (utf16 "ann@example.org"))
    (formField "phone" (utf16 "  ")) rfl rfl rfl rfl rfl).2.1 (Or.inr (Or.inr (by decide)))

/-- C8 fails on the code: when the form has no element with id `name`, the
submit handler ends with a `TypeError` (after it has prevented the default
submission), whatever the other fields hold. -/
theorem submit_without_name_throws :
    submitHandler { controls := [formField "email" (utf16 "a@b.co"), formField "phone" (utf16 "1")] } =
      { defaultPrevented := true, alerts := [], resetCalled := false,
        thrown := some .typeError } := by
  decide

end StudyOClock
